import Mathlib

/-!
Verification of the AthleteX kinematic event detection and scoring engine.

The definitions below are shallow embeddings of the Python sources:

* `public/models/broad_jump/Broad_jump_model/live_broad_jump_test.py`
  (smoothing, click-point calibration, the trial distance gate and the
  session aggregation in `main`);
* `public/models/shuttle_run/4_10_shuttle_run/shuttle_run_analyzer.py`
  (`CalibrationEngine.calibrate_from_markers`);
* `trained_models_temp/.../situp_counter/situps_complete.py`
  (the DOWN/UP rep-counting state machine of
  `SitupCounter.show_running_test`);
* `public/models/sit_and_reach/HLS/sit_reach_test.py`
  (`detect_box_baseline` and the between-attempt reset).

Python floats are modelled as exact rationals (`ℚ`); the pixel distances
that the sources compute with `sqrt` live in `ℝ` via `Real.sqrt`.
-/

namespace AthleteX

/-! ## Broad jump: smoothing, calibration, trial gate, session aggregate -/

/-- Embeds `smooth_position(current, previous, alpha=0.3)`: exponential
smoothing that returns the raw value when there is no previous smoothed
value (the first valid frame anchors the filter). -/
def smooth_position (current : ℚ) (previous : Option ℚ) (alpha : ℚ) : ℚ :=
  match previous with
  | none => current
  | some prev => alpha * current + (1 - alpha) * prev

/-- Euclidean pixel distance between two clicked points, as the sources
compute it with `np.sqrt` of the sum of squared coordinate differences. -/
noncomputable def pixelDistance (p1 p2 : ℚ × ℚ) : ℝ :=
  Real.sqrt (((p2.1 - p1.1) ^ 2 + (p2.2 - p1.2) ^ 2 : ℚ) : ℝ)

/-- Embeds the numeric core of `calibrate_system`: the user clicks two
reference points and enters the real distance; a non-positive entered
distance is rejected (`return None, None`), otherwise the scale is
`px_distance / real_distance` pixels per meter. -/
noncomputable def calibrate_system (p1 p2 : ℚ × ℚ) (real_distance : ℚ) : Option ℝ :=
  if real_distance ≤ 0 then none
  else some (pixelDistance p1 p2 / (real_distance : ℝ))

/-- Embeds the distance computation of `run_trial`:
`px_distance = abs(landing_x - start_pos)` and
`distance_m = px_distance / px_per_meter`. -/
noncomputable def run_trial_distance (landing_x start_pos : ℚ) (px_per_meter : ℝ) : ℝ :=
  ((|landing_x - start_pos| : ℚ) : ℝ) / px_per_meter

/-- Embeds the plausibility gate at the end of `run_trial`: a computed
distance below 0.2 m or above 5.0 m makes the trial return `None`;
otherwise the distance is returned. -/
def validateDistance (distance_m : ℚ) : Option ℚ :=
  if distance_m < 1/5 ∨ distance_m > 5 then none else some distance_m

/-- Embeds the trial loop of `main`: each trial's outcome is appended to
`results` only when it is not `None`. -/
def sessionResults (trials : List (Option ℚ)) : List ℚ :=
  trials.foldl (fun acc t => match t with | none => acc | some d => acc ++ [d]) []

/-- Embeds the final-results block of `main`: with a nonempty results
list it reports `best = max(results)` and `avg = sum(results)/len(results)`;
with an empty list it prints "No valid jumps recorded" and reports no
numbers, modelled as `none`. -/
def sessionFinalize (results : List ℚ) : Option (ℚ × ℚ) :=
  match results with
  | [] => none
  | r :: rest => some ((rest.foldl max r), (r :: rest).sum / ((r :: rest).length : ℚ))

/-! ## Shuttle run: marker calibration (`CalibrationEngine.calibrate_from_markers`) -/

/-- Embeds the `CalibrationResult` dataclass of the shuttle-run analyzer. -/
structure CalibrationResult where
  px_to_m : ℝ
  confidence : ℚ
  line_a_px : ℚ × ℚ
  line_b_px : ℚ × ℚ
  distance_verified_m : ℚ

/-- Embeds `CalibrationEngine.calibrate_from_markers`: marker lines at the
placeholder positions `(100, 500)` and `(900, 500)`, scale
`known_distance_m / pixel_distance` (falling back to `0.01` when the pixel
distance is not positive) and a fixed `confidence = 0.9`. -/
noncomputable def calibrate_from_markers (known_distance_m : ℚ) : CalibrationResult :=
  let line_a_px : ℚ × ℚ := (100, 500)
  let line_b_px : ℚ × ℚ := (900, 500)
  let pixel_distance : ℝ := pixelDistance line_a_px line_b_px
  { px_to_m := if 0 < pixel_distance then (known_distance_m : ℝ) / pixel_distance else 1/100
    confidence := 9/10
    line_a_px := line_a_px
    line_b_px := line_b_px
    distance_verified_m := known_distance_m }

/-! ## Situp counter: the DOWN/UP phase state machine of
`SitupCounter.show_running_test` -/

/-- The two phases of the situp rep counter (`self.state`). -/
inductive SitupPhase
  | down
  | up
deriving DecidableEq, Repr

/-- The kinds of rep rejection of the 5-point validation, one per early
`return` in `show_running_test`'s UP-to-DOWN branch, in source order. -/
inductive ViolationKind
  | heldTooBriefly
  | exceededTimeBudget
  | rangeTooSmall
  | notBentEnough
  | notLyingFlat
deriving DecidableEq, Repr

/-- The mutable counter state that `show_running_test` reads and writes. -/
structure SitupState where
  state : SitupPhase
  state_entry_time : ℚ
  min_angle_in_cycle : ℚ
  max_angle_in_cycle : ℚ
  rep_count : ℕ
  down_hold_start : Option ℚ
deriving DecidableEq, Repr

/-- `self.UP_THRESHOLD = 70`: UP (bent forward) is angle `< 70`. -/
def UP_THRESHOLD : ℚ := 70

/-- `self.DOWN_THRESHOLD = 160`: DOWN (lying flat) is angle `> 160`. -/
def DOWN_THRESHOLD : ℚ := 160

/-- `self.MIN_RANGE = 50`: minimum range of motion in degrees. -/
def MIN_RANGE : ℚ := 50

/-- `self.MIN_HOLD_TIME = 0.3`: a position must be held 0.3 seconds. -/
def MIN_HOLD_TIME : ℚ := 3/10

/-- `self.MAX_REP_TIME = 3.0`: a rep must complete within 3 seconds. -/
def MAX_REP_TIME : ℚ := 3

/-- The 5-point validation applied when the machine is in UP and the angle
crosses back above `DOWN_THRESHOLD`: each check is the condition of one
early `return` of the source, in source order, and the source reports only
the check that fired, so the result is at most one violation. -/
def repViolations (time_in_up angle_range min_angle max_angle : ℚ) :
    List ViolationKind :=
  if time_in_up < MIN_HOLD_TIME then [ViolationKind.heldTooBriefly]
  else if time_in_up > MAX_REP_TIME then [ViolationKind.exceededTimeBudget]
  else if angle_range < MIN_RANGE then [ViolationKind.rangeTooSmall]
  else if min_angle ≥ UP_THRESHOLD then [ViolationKind.notBentEnough]
  else if max_angle < DOWN_THRESHOLD then [ViolationKind.notLyingFlat]
  else []

/-- One frame of the state machine in `show_running_test`, fed the frame's
wall-clock time and the transformed trunk angle (`self.current_angle`).
It updates the rolling extremes, tracks the DOWN hold start, fires the
DOWN-to-UP transition when the state has been occupied for at least
`MIN_HOLD_TIME` (with the source's falsy-zero reading of
`self.state_entry_time`), and on UP-to-DOWN either counts a rep (all five
validations pass) or rejects it, both paths resetting the cycle extremes
to 180 and 0. -/
def situpStep (s : SitupState) (current_time current_angle : ℚ) : SitupState :=
  let minA := min s.min_angle_in_cycle current_angle
  let maxA := max s.max_angle_in_cycle current_angle
  let angle_range := maxA - minA
  let dhs : Option ℚ :=
    if current_angle > DOWN_THRESHOLD then
      match s.down_hold_start with
      | none => some current_time
      | some t => some t
    else none
  let s1 : SitupState :=
    { s with min_angle_in_cycle := minA, max_angle_in_cycle := maxA,
             down_hold_start := dhs }
  if s.state = SitupPhase.down ∧ current_angle < UP_THRESHOLD then
    let down_hold_time :=
      if s.state_entry_time = 0 then 0 else current_time - s.state_entry_time
    if down_hold_time < MIN_HOLD_TIME then s1
    else { s1 with state := SitupPhase.up, state_entry_time := current_time }
  else if s.state = SitupPhase.up ∧ current_angle > DOWN_THRESHOLD then
    let time_in_up := current_time - s.state_entry_time
    if repViolations time_in_up angle_range minA maxA = [] then
      { s1 with state := SitupPhase.down, state_entry_time := current_time,
                rep_count := s.rep_count + 1,
                min_angle_in_cycle := 180, max_angle_in_cycle := 0 }
    else
      { s1 with state := SitupPhase.down, state_entry_time := current_time,
                min_angle_in_cycle := 180, max_angle_in_cycle := 0 }
  else s1

/-- A sequence of frames, each a `(current_time, current_angle)` pair. -/
def situpRun (s : SitupState) (frames : List (ℚ × ℚ)) : SitupState :=
  frames.foldl (fun st f => situpStep st f.1 f.2) s

/-! ## Sit and reach: baseline capture (`SitReachTest.detect_box_baseline`)
and the between-attempt reset -/

/-- Truncation toward zero, Python's `int(...)` applied to a float. -/
def pyInt (q : ℚ) : ℤ := if 0 ≤ q then ⌊q⌋ else -⌊-q⌋

/-- One detected landmark: coordinates and a visibility/confidence score. -/
structure Landmark where
  x : ℚ
  y : ℚ
  visibility : ℚ
deriving DecidableEq, Repr

/-- The sit-and-reach test state touched by the baseline and measurement
logic: the locked toe-line position, the stabilisation samples and the
per-attempt best reach. -/
structure SitReachState where
  baseline_x : Option ℤ
  baseline_y : Option ℤ
  baseline_locked : Bool
  baseline_samples : List ℤ
  max_reach_cm : ℚ
deriving DecidableEq, Repr

/-- Records one toe-position sample as `detect_box_baseline` does: the
sample is appended, and once 10 samples are collected the baseline X is
locked to their (truncated) average. -/
def recordBaselineSample (s : SitReachState) (bx bY : ℤ) : SitReachState × Bool :=
  let samples := s.baseline_samples ++ [bx]
  if samples.length ≥ 10 then
    ({ s with baseline_x := some (pyInt ((samples.sum : ℚ) / (samples.length : ℚ))),
              baseline_y := some bY, baseline_locked := true,
              baseline_samples := samples }, true)
  else
    ({ s with baseline_x := some bx, baseline_y := some bY,
              baseline_samples := samples }, true)

/-- Embeds `SitReachTest.detect_box_baseline`: once `baseline_locked` is
set the function returns immediately; otherwise it samples the furthest
forward BlazePose toe (visibility above 0.5), falling back to the YOLO
ankles (confidence above 0.4), and locks the baseline after 10 samples.
`blaze` holds the left and right foot-index landmarks, `yolo` the left and
right ankle keypoints. -/
def detect_box_baseline (s : SitReachState)
    (blaze yolo : Option (Landmark × Landmark)) (frame_w : ℚ) :
    SitReachState × Bool :=
  if s.baseline_locked then (s, true)
  else
    let frame_h : ℚ := 480
    let blazeHit : Option (Landmark × Landmark) :=
      match blaze with
      | some (lf, rf) =>
        if lf.visibility > 1/2 ∨ rf.visibility > 1/2 then some (lf, rf) else none
      | none => none
    match blazeHit with
    | some (lf, rf) =>
      let lx := pyInt (lf.x * frame_w)
      let rx := pyInt (rf.x * frame_w)
      if lf.visibility > 1/2 ∧ rf.visibility > 1/2 then
        recordBaselineSample s (max lx rx)
          (if lx > rx then pyInt (lf.y * frame_h) else pyInt (rf.y * frame_h))
      else if lf.visibility > 1/2 then
        recordBaselineSample s lx (pyInt (lf.y * frame_h))
      else
        recordBaselineSample s rx (pyInt (rf.y * frame_h))
    | none =>
      match yolo with
      | some (la, ra) =>
        if la.visibility > 2/5 ∨ ra.visibility > 2/5 then
          if la.visibility > 2/5 ∧ ra.visibility > 2/5 then
            recordBaselineSample s (pyInt (max la.x ra.x)) (pyInt ((la.y + ra.y) / 2))
          else if la.visibility > 2/5 then
            recordBaselineSample s (pyInt la.x) (pyInt la.y)
          else
            recordBaselineSample s (pyInt ra.x) (pyInt ra.y)
        else (s, false)
      | none => (s, false)

/-- Embeds the per-frame best-reach update of the measuring state:
`if reach_cm > self.max_reach_cm: self.max_reach_cm = reach_cm`. -/
def update_max_reach (s : SitReachState) (reach_cm : ℚ) : SitReachState :=
  if reach_cm > s.max_reach_cm then { s with max_reach_cm := reach_cm } else s

/-- Embeds the transition from the rest period to the next attempt: the
best reach is reset but the baseline is deliberately kept (the source
comments "DON'T reset baseline - keep same line for all attempts!"). -/
def rest_to_ready (s : SitReachState) : SitReachState :=
  { s with max_reach_cm := 0 }

/-- The pipeline operations of a sit-and-reach trial that touch this
state: processing a frame (baseline detection), recording a reach
measurement, and moving on to the next attempt. -/
inductive SitReachOp
  | frame (blaze yolo : Option (Landmark × Landmark)) (frame_w : ℚ)
  | measure (reach_cm : ℚ)
  | nextAttempt

/-- Applies one pipeline operation to the state. -/
def applySitReachOp (s : SitReachState) : SitReachOp → SitReachState
  | SitReachOp.frame blaze yolo frame_w => (detect_box_baseline s blaze yolo frame_w).1
  | SitReachOp.measure reach_cm => update_max_reach s reach_cm
  | SitReachOp.nextAttempt => rest_to_ready s

/-- Runs a sequence of pipeline operations. -/
def runSitReach (s : SitReachState) (ops : List SitReachOp) : SitReachState :=
  ops.foldl applySitReachOp s

end AthleteX

namespace AthleteX

/-! ## Calibration helper lemmas -/

/-- Evaluates `pixelDistance` when the squared distance is a perfect square. -/
theorem pixelDistance_eval (p1 p2 : ℚ × ℚ) (r : ℚ)
    (h : (p2.1 - p1.1) ^ 2 + (p2.2 - p1.2) ^ 2 = r ^ 2) (hr : 0 ≤ r) :
    pixelDistance p1 p2 = (r : ℝ) := by
  unfold pixelDistance
  rw [h]
  push_cast
  exact Real.sqrt_sq (by exact_mod_cast hr)

/-- The pixel distance is strictly positive for distinct points. -/
theorem pixelDistance_pos (p1 p2 : ℚ × ℚ) (hne : p1 ≠ p2) :
    0 < pixelDistance p1 p2 := by
  unfold pixelDistance
  rw [Real.sqrt_pos]
  have hsum : 0 < (p2.1 - p1.1) ^ 2 + (p2.2 - p1.2) ^ 2 := by
    rcases (show p2.1 - p1.1 ≠ 0 ∨ p2.2 - p1.2 ≠ 0 by
      by_contra hc
      push_neg at hc
      exact hne (Prod.ext (by linarith [hc.1]) (by linarith [hc.2]))) with hx | hy
    · have h1 : 0 < (p2.1 - p1.1) ^ 2 := by positivity
      have h2 : 0 ≤ (p2.2 - p1.2) ^ 2 := sq_nonneg _
      linarith
    · have h1 : 0 ≤ (p2.1 - p1.1) ^ 2 := sq_nonneg _
      have h2 : 0 < (p2.2 - p1.2) ^ 2 := by positivity
      linarith
  exact_mod_cast hsum

/-! ## Theorems for the broad-jump claims -/

/-- C6: the normalizer's exponential smoothing contract: the first valid
frame (no previous smoothed value) passes through unchanged, and every
later frame is `alpha * raw + (1 - alpha) * prev_smoothed`. -/
theorem smooth_position_contract (current prev alpha : ℚ) :
    smooth_position current none alpha = current ∧
    smooth_position current (some prev) alpha =
      alpha * current + (1 - alpha) * prev := by
  constructor <;> rfl

/-- C5: finalizing a session yields `none` exactly when the list of valid
trials is empty, so an empty session gives an explicit no-result outcome
and never a numeric best/mean such as 0.0. -/
theorem sessionFinalize_empty_iff (results : List ℚ) :
    sessionFinalize results = none ↔ results = [] := by
  cases results with
  | nil => simp [sessionFinalize]
  | cons r rest => simp [sessionFinalize]

/-- C4: the derived scale is the pixel measurement divided by the entered
real distance, so two calibrations from the same clicked points are
inversely proportional in the reference distance (`s1 * d1 = s2 * d2`, and
the larger distance yields the smaller scale); concretely, points 500 px
apart labeled 1.0 unit give `scale = 500`, and an event spanning pixels
100 to 650 then measures `550 / 500 = 1.1` units. -/
theorem calibration_scale_inverse (p1 p2 : ℚ × ℚ) (d1 d2 : ℚ) (s1 s2 : ℝ) :
    (0 < d1 → d1 < d2 →
      calibrate_system p1 p2 d1 = some s1 →
      calibrate_system p1 p2 d2 = some s2 →
      s1 * (d1 : ℝ) = s2 * (d2 : ℝ) ∧ s2 ≤ s1) ∧
    calibrate_system (100, 0) (600, 0) 1 = some 500 ∧
    run_trial_distance 650 100 500 = 11/10 := by
  refine ⟨?_, ?_, ?_⟩
  · intro hd1 hlt h1 h2
    have hd2 : (0 : ℚ) < d2 := lt_trans hd1 hlt
    unfold calibrate_system at h1 h2
    rw [if_neg (not_le.mpr hd1)] at h1
    rw [if_neg (not_le.mpr hd2)] at h2
    have hs1 : s1 = pixelDistance p1 p2 / (d1 : ℝ) := (Option.some_inj.mp h1).symm
    have hs2 : s2 = pixelDistance p1 p2 / (d2 : ℝ) := (Option.some_inj.mp h2).symm
    have hd1R : (0 : ℝ) < (d1 : ℝ) := by exact_mod_cast hd1
    have hd2R : (0 : ℝ) < (d2 : ℝ) := by exact_mod_cast hd2
    have hpx : (0 : ℝ) ≤ pixelDistance p1 p2 := Real.sqrt_nonneg _
    constructor
    · rw [hs1, hs2]
      field_simp
    · rw [hs1, hs2]
      have hltR : (d1 : ℝ) ≤ (d2 : ℝ) := by exact_mod_cast le_of_lt hlt
      gcongr
  · unfold calibrate_system
    rw [if_neg (by norm_num)]
    have hpd : pixelDistance (100, 0) (600, 0) = ((500 : ℚ) : ℝ) :=
      pixelDistance_eval _ _ 500 (by norm_num) (by norm_num)
    rw [hpd]
    norm_num
  · unfold run_trial_distance
    norm_num

/-- C8 counterexample: clicking the same reference point twice makes
`calibrate_system` succeed with scale `0`, so a successful calibration
does not always have `scale_px_per_unit > 0`. -/
theorem calibrate_system_zero_scale :
    calibrate_system (100, 100) (100, 100) 1 = some 0 ∧ ¬ (0 : ℝ) < 0 := by
  constructor
  · unfold calibrate_system
    rw [if_neg (by norm_num)]
    have hpd : pixelDistance (100, 100) (100, 100) = ((0 : ℚ) : ℝ) :=
      pixelDistance_eval _ _ 0 (by norm_num) (by norm_num)
    rw [hpd]
    norm_num
  · exact lt_irrefl 0

/-- C8 amended: every successful calibration from two distinct reference
points has `scale_px_per_unit > 0` (success already forces the entered
real distance to be positive). -/
theorem calibrate_system_pos (p1 p2 : ℚ × ℚ) (d : ℚ) (s : ℝ)
    (hne : p1 ≠ p2) (h : calibrate_system p1 p2 d = some s) : 0 < s := by
  unfold calibrate_system at h
  by_cases hd : d ≤ 0
  · rw [if_pos hd] at h
    exact absurd h (Option.noConfusion)
  · rw [if_neg hd] at h
    have hs : s = pixelDistance p1 p2 / (d : ℝ) := (Option.some_inj.mp h).symm
    have hdR : (0 : ℝ) < (d : ℝ) := by exact_mod_cast lt_of_not_le hd
    rw [hs]
    exact div_pos (pixelDistance_pos p1 p2 hne) hdR

/-- Witness for `calibrate_system_pos`: the points `(0,0)` and `(3,4)` at
real distance `1` calibrate to scale `5`, which is positive. -/
theorem calibrate_system_pos_witness :
    ((0, 0) : ℚ × ℚ) ≠ (3, 4) ∧
    calibrate_system (0, 0) (3, 4) 1 = some 5 ∧ (0 : ℝ) < 5 := by
  have hne : ((0, 0) : ℚ × ℚ) ≠ (3, 4) := by decide
  have hcal : calibrate_system (0, 0) (3, 4) 1 = some 5 := by
    unfold calibrate_system
    rw [if_neg (by norm_num)]
    have hpd : pixelDistance (0, 0) (3, 4) = ((5 : ℚ) : ℝ) :=
      pixelDistance_eval _ _ 5 (by norm_num) (by norm_num)
    rw [hpd]
    norm_num
  exact ⟨hne, hcal, calibrate_system_pos (0, 0) (3, 4) 1 5 hne hcal⟩

/-- C7 counterexample: a completed marker calibration carries confidence
`0.9`, not `1.0`. -/
theorem calibrate_from_markers_not_one :
    (calibrate_from_markers 10).confidence = 9/10 ∧ ((9 : ℚ)/10) ≠ 1 := by
  exact ⟨rfl, by norm_num⟩

/-- C7 amended: every marker-based calibration of the shuttle-run analyzer
reports the fixed confidence `0.9` (a value below `1.0`), whatever the
known distance; the ArUco calibration of the sit-and-reach test records no
confidence at all. -/
theorem calibrate_from_markers_confidence (known_distance_m : ℚ) :
    (calibrate_from_markers known_distance_m).confidence = 9/10 ∧
    (calibrate_from_markers known_distance_m).confidence < 1 := by
  exact ⟨rfl, by norm_num [calibrate_from_markers]⟩

/-- The accumulated session list is exactly the non-`None` trial outcomes
in order. -/
theorem sessionResults_eq_reduceOption (trials : List (Option ℚ)) :
    sessionResults trials = trials.reduceOption := by
  unfold sessionResults
  suffices h : ∀ acc : List ℚ,
      trials.foldl (fun acc t => match t with | none => acc | some d => acc ++ [d]) acc =
        acc ++ trials.reduceOption by
    simpa using h []
  induction trials with
  | nil => intro acc; simp
  | cons t rest ih =>
    intro acc
    cases t with
    | none => simp [List.reduceOption_cons_of_none, ih]
    | some d => simp [List.reduceOption_cons_of_some, ih]

/-- A distance that passes the gate lies in the plausible band. -/
theorem validateDistance_some_bound (d x : ℚ) (h : validateDistance d = some x) :
    1/5 ≤ x ∧ x ≤ 5 := by
  unfold validateDistance at h
  by_cases hc : d < 1/5 ∨ d > 5
  · rw [if_pos hc] at h
    exact absurd h (Option.noConfusion)
  · rw [if_neg hc] at h
    push_neg at hc
    obtain ⟨h1, h2⟩ := hc
    obtain rfl := Option.some_inj.mp h
    exact ⟨le_of_not_lt (by simpa using h1), by simpa using h2⟩

/-! ## Theorems for the situp state-machine claims -/

/-- A situp counter that has been lying in DOWN since time 1 with the
initial cycle extremes; used as the concrete pre-window state. -/
def situpDownSince1 : SitupState :=
  { state := SitupPhase.down, state_entry_time := 1, min_angle_in_cycle := 180,
    max_angle_in_cycle := 0, rep_count := 0, down_hold_start := none }

/-- C1 counterexample: with `hold_time_debounce = MIN_HOLD_TIME = 0.3 s`, a
machine that has occupied DOWN since t = 1 sees the "up" predicate
(`angle < UP_THRESHOLD`) hold only on the frame at t = 2 and revert by
t = 2.1 — the predicate held for under 0.3 s — yet after that window the
machine is in UP, not the DOWN it started in: the transition fired on the
first qualifying frame. -/
theorem situp_flicker_fires_transition :
    (65 : ℚ) < UP_THRESHOLD ∧ ¬ ((100 : ℚ) < UP_THRESHOLD) ∧
    ((21/10 : ℚ) - 2) < MIN_HOLD_TIME ∧
    situpDownSince1.state = SitupPhase.down ∧
    (situpRun situpDownSince1 [(2, 65), (21/10, 100)]).state = SitupPhase.up := by
  norm_num [situpRun, situpStep, repViolations, situpDownSince1, UP_THRESHOLD,
    DOWN_THRESHOLD, MIN_RANGE, MIN_HOLD_TIME, MAX_REP_TIME]

/-- One frame processed while the machine has been in DOWN for less than
`MIN_HOLD_TIME` leaves the phase, its entry time and the rep count
unchanged. -/
theorem situpStep_down_short (s : SitupState) (now angle : ℚ)
    (hdown : s.state = SitupPhase.down)
    (hshort : now - s.state_entry_time < MIN_HOLD_TIME) :
    (situpStep s now angle).state = SitupPhase.down ∧
    (situpStep s now angle).state_entry_time = s.state_entry_time ∧
    (situpStep s now angle).rep_count = s.rep_count := by
  simp only [situpStep]
  split_ifs <;>
    first
    | exact ⟨hdown, rfl, rfl⟩
    | (exfalso; linarith)
    | (exfalso; norm_num [MIN_HOLD_TIME] at *; done)
    | simp_all

/-- C1 amended: the debounce of `show_running_test` bounds occupancy of the
current state, not the duration for which the predicate has held: while the
machine has been in DOWN for fewer than `MIN_HOLD_TIME` seconds, no frame
fires a transition — the phase stays DOWN with its entry time and rep count
unchanged — but a single qualifying frame does fire the transition once the
state is older than `MIN_HOLD_TIME` (see the counterexample). -/
theorem situp_down_debounce (s : SitupState) (frames : List (ℚ × ℚ))
    (hdown : s.state = SitupPhase.down)
    (hshort : ∀ f ∈ frames, f.1 - s.state_entry_time < MIN_HOLD_TIME) :
    (situpRun s frames).state = SitupPhase.down ∧
    (situpRun s frames).state_entry_time = s.state_entry_time ∧
    (situpRun s frames).rep_count = s.rep_count := by
  induction frames generalizing s with
  | nil => exact ⟨hdown, rfl, rfl⟩
  | cons f rest ih =>
    have hstep := situpStep_down_short s f.1 f.2 hdown (hshort f (by simp))
    have hrest := ih (situpStep s f.1 f.2) hstep.1 (by
      intro g hg
      rw [hstep.2.1]
      exact hshort g (List.mem_cons_of_mem f hg))
    have hgoal : situpRun s (f :: rest) = situpRun (situpStep s f.1 f.2) rest := rfl
    rw [hgoal]
    exact ⟨hrest.1, hrest.2.1.trans hstep.2.1, hrest.2.2.trans hstep.2.2⟩

/-- Witness for `situp_down_debounce`: a frame at t = 1.1 with the "up"
predicate holding (angle 65) arrives 0.1 s after DOWN was entered at t = 1,
and the machine stays in DOWN. -/
theorem situp_down_debounce_witness :
    (situpRun situpDownSince1 [(11/10, 65)]).state = SitupPhase.down ∧
    (situpRun situpDownSince1 [(11/10, 65)]).state_entry_time =
      situpDownSince1.state_entry_time ∧
    (situpRun situpDownSince1 [(11/10, 65)]).rep_count =
      situpDownSince1.rep_count := by
  exact situp_down_debounce situpDownSince1 [(11/10, 65)] rfl (by
    intro f hf
    simp only [List.mem_singleton] at hf
    subst hf
    norm_num [situpDownSince1, MIN_HOLD_TIME])

/-- C2 counterexample: a candidate rep whose UP hold time (0.1 s) fails the
hold-time check while its range of motion (10°) simultaneously fails the
range check is reported with the hold-time violation only: `RangeTooSmall`
is missing from the reasons. -/
theorem repViolations_first_only :
    ((1 : ℚ)/10 < MIN_HOLD_TIME) ∧ ((110 : ℚ) - 100 < MIN_RANGE) ∧
    repViolations (1/10) (110 - 100) 100 110 = [ViolationKind.heldTooBriefly] ∧
    ViolationKind.rangeTooSmall ∉ repViolations (1/10) (110 - 100) 100 110 := by
  norm_num [repViolations, MIN_HOLD_TIME, MAX_REP_TIME, MIN_RANGE,
    UP_THRESHOLD, DOWN_THRESHOLD]
  decide

/-- C2 amended: a rep is accepted (empty violation list) exactly when all
five checks pass, and when checks fail the validator reports at most one
violation — the first failing check in the source order hold-time,
time-budget, range, minimum-angle, maximum-angle — not all of them. -/
theorem repViolations_spec (t r mn mx : ℚ) :
    (repViolations t r mn mx = [] ↔
      (MIN_HOLD_TIME ≤ t ∧ t ≤ MAX_REP_TIME ∧ MIN_RANGE ≤ r ∧
        mn < UP_THRESHOLD ∧ DOWN_THRESHOLD ≤ mx)) ∧
    (repViolations t r mn mx).length ≤ 1 := by
  unfold repViolations
  split_ifs with h1 h2 h3 h4 h5 <;>
    constructor <;> simp_all [not_lt, not_le]

/-- Every candidate with insufficient range of motion draws at least one
violation, whatever the timing. -/
theorem repViolations_ne_nil_of_range (t r mn mx : ℚ) (h : r < MIN_RANGE) :
    repViolations t r mn mx ≠ [] := by
  unfold repViolations
  split_ifs <;> simp_all

/-- C3: no false completion: a frame whose updated cycle range
(`max - min` of the tracked extremes) is below `MIN_RANGE` never increments
the rep count, regardless of the machine's phase, hold times or timing. -/
theorem situp_range_never_counts (s : SitupState) (now angle : ℚ)
    (h : max s.max_angle_in_cycle angle - min s.min_angle_in_cycle angle <
      MIN_RANGE) :
    (situpStep s now angle).rep_count = s.rep_count := by
  simp only [situpStep]
  split_ifs <;>
    first
    | rfl
    | (exfalso; exact repViolations_ne_nil_of_range _ _ _ _ h (by assumption))

/-- Witness for `situp_range_never_counts`: in UP since t = 1 with tracked
extremes 100 and 110, a frame at t = 3 with angle 111 gives an updated
range of 11° < `MIN_RANGE`, and the rep count stays at 7. -/
theorem situp_range_never_counts_witness :
    max (110 : ℚ) 111 - min (100 : ℚ) 111 < MIN_RANGE ∧
    (situpStep
      { state := SitupPhase.up, state_entry_time := 1, min_angle_in_cycle := 100,
        max_angle_in_cycle := 110, rep_count := 7, down_hold_start := none }
      3 111).rep_count = 7 := by
  refine ⟨by norm_num [MIN_RANGE], ?_⟩
  exact situp_range_never_counts
    { state := SitupPhase.up, state_entry_time := 1, min_angle_in_cycle := 100,
      max_angle_in_cycle := 110, rep_count := 7, down_hold_start := none }
    3 111 (by norm_num [MIN_RANGE])

/-! ## Theorems for the sit-and-reach baseline claim -/

/-- A single pipeline operation never changes a locked baseline. -/
theorem applySitReachOp_baseline (s : SitReachState) (op : SitReachOp)
    (hlock : s.baseline_locked = true) :
    (applySitReachOp s op).baseline_x = s.baseline_x ∧
    (applySitReachOp s op).baseline_y = s.baseline_y ∧
    (applySitReachOp s op).baseline_locked = true := by
  cases op with
  | frame blaze yolo frame_w =>
    simp [applySitReachOp, detect_box_baseline, hlock]
  | measure reach_cm =>
    simp only [applySitReachOp, update_max_reach]
    split_ifs <;> simp [hlock]
  | nextAttempt =>
    simpa [applySitReachOp, rest_to_ready] using hlock

/-- C9: baseline immutability: once `detect_box_baseline` has locked the
baseline, every subsequent pipeline operation — further frames, reach
measurements and the between-attempt resets — leaves the stored baseline
position unchanged (and leaves it locked) for the rest of the trial. -/
theorem baseline_immutable_once_locked (s : SitReachState)
    (ops : List SitReachOp) (hlock : s.baseline_locked = true) :
    (runSitReach s ops).baseline_x = s.baseline_x ∧
    (runSitReach s ops).baseline_y = s.baseline_y ∧
    (runSitReach s ops).baseline_locked = true := by
  induction ops generalizing s with
  | nil => exact ⟨rfl, rfl, hlock⟩
  | cons op rest ih =>
    have hstep := applySitReachOp_baseline s op hlock
    have hrest := ih (applySitReachOp s op) hstep.2.2
    have hgoal : runSitReach s (op :: rest) = runSitReach (applySitReachOp s op) rest := rfl
    rw [hgoal]
    exact ⟨hrest.1.trans hstep.1, hrest.2.1.trans hstep.2.1, hrest.2.2⟩

/-- A sit-and-reach state whose baseline has been locked at toe X = 300. -/
def lockedAt300 : SitReachState :=
  { baseline_x := some 300, baseline_y := some 400, baseline_locked := true,
    baseline_samples := [300, 300, 300, 300, 300, 300, 300, 300, 300, 300],
    max_reach_cm := 0 }

/-- Witness for `baseline_immutable_once_locked`: with the baseline locked
at 300, a further detection frame, a 12 cm reach and the next-attempt
reset leave the baseline at 300 and locked. -/
theorem baseline_immutable_once_locked_witness :
    (runSitReach lockedAt300
      [SitReachOp.frame none none 640, SitReachOp.measure 12,
       SitReachOp.nextAttempt]).baseline_x = lockedAt300.baseline_x ∧
    (runSitReach lockedAt300
      [SitReachOp.frame none none 640, SitReachOp.measure 12,
       SitReachOp.nextAttempt]).baseline_y = lockedAt300.baseline_y ∧
    (runSitReach lockedAt300
      [SitReachOp.frame none none 640, SitReachOp.measure 12,
       SitReachOp.nextAttempt]).baseline_locked = true := by
  exact baseline_immutable_once_locked lockedAt300
    [SitReachOp.frame none none 640, SitReachOp.measure 12,
     SitReachOp.nextAttempt] rfl

/-- C10: a computed distance below 0.2 m or above 5.0 m is discarded by
the trial gate, and therefore every distance in the session's results list
(the accumulation of the gated trial outcomes) lies within [0.2, 5.0]. -/
theorem session_distances_plausible :
    (∀ d : ℚ, (d < 1/5 ∨ d > 5) → validateDistance d = none) ∧
    (∀ (ds : List ℚ) (x : ℚ),
      x ∈ sessionResults (ds.map validateDistance) → 1/5 ≤ x ∧ x ≤ 5) := by
  constructor
  · intro d hd
    unfold validateDistance
    rw [if_pos hd]
  · intro ds x hx
    rw [sessionResults_eq_reduceOption] at hx
    rw [List.reduceOption_mem_iff] at hx
    rw [List.mem_map] at hx
    obtain ⟨d, _, hd⟩ := hx
    exact validateDistance_some_bound d x hd

end AthleteX
